import Mathlib

set_option maxRecDepth 4000

/-!
Verification of the hcsshim template/clone subsystem.

The development shallowly embeds the four Go source files of the repository:

* `internal/clone` (registry-backed persistence of template configs:
  `loadPersistedUVMConfig`, `storePersistedUVMConfig`,
  `removePersistedUVMConfig`, `SaveTemplateConfig`, `FetchTemplateConfig`,
  `RemoveSavedTemplateConfig`, and the gob codec wrappers);
* `internal/uvm/clone.go` (`UVMTemplateConfig`, `GenerateTemplateConfig`,
  `UtilityVM.SaveAsTemplate`);
* `internal/hcsoci/network.go` (`GetNamespaceEndpoints`,
  `SetupNetworkNamespace`);
* `cmd/containerd-shim-runhcs-v1/clone.go` (`saveAsTemplate`).

External collaborators (the regstate registry store, the gob codec itself,
the hns/hcn providers, the compute-system control plane) are not part of the
repository's files; they are modelled from the spec, with every such
definition marked `Modelled from the spec:` in its doc comment.  Go errors
are modelled by `GoError` (a nilable `error` is `Option GoError`); a Go
runtime panic is an explicit outcome constructor, never an error value.
-/

/-- Modelled from the spec: the file-share mount variant of
`CloneableResource` (Go `uvm.VSMBShare`; the struct's declaration is outside
the repository's files).  It carries only the exported configuration needed
to re-establish the share: paths and flags. -/
structure VSMBShare where
  HostPath : String
  GuestPath : String
  ReadOnly : Bool
deriving DecidableEq

/-- Modelled from the spec: the block-device mount variant of
`CloneableResource` (Go `uvm.SCSIMount`; the struct's declaration is outside
the repository's files).  It carries only the exported configuration needed
to re-establish the mount: a path and controller/location numbers. -/
structure SCSIMount where
  HostPath : String
  Controller : Nat
  LUN : Nat
deriving DecidableEq

/-- The closed set of concrete resource variants that may appear in a
template's resource list.  The Go side stores them behind the `Cloneable`
interface; `init` in `internal/clone` registers exactly these two concrete
types with gob. -/
inductive Cloneable where
  | vsmbShare (s : VSMBShare)
  | scsiMount (m : SCSIMount)
deriving DecidableEq

/-- `uvm.UVMTemplateConfig` (internal/uvm/clone.go): the id of the template
VM together with the ordered list of cloneable resources. -/
structure UVMTemplateConfig where
  UVMID : String
  Resources : List Cloneable
deriving DecidableEq

/-! ## The gob codec, modelled

`encoding/gob` is the Go standard library; the byte stream is modelled as a
token stream (`GobToken`), with polymorphic (interface) values written as a
concrete-type tag followed by the variant's payload, exactly the
tag-plus-payload shape the spec describes for the codec. -/

/-- Modelled from the spec: one token of the serialized stream standing for
a run of bytes produced by gob. -/
inductive GobToken where
  | tag (n : Nat)
  | str (s : String)
  | nat (n : Nat)
  | bool (b : Bool)
deriving DecidableEq

/-- The concrete-type tag gob assigns to `*uvm.VSMBShare` on registration. -/
def vsmbShareTag : Nat := 1

/-- The concrete-type tag gob assigns to `*uvm.SCSIMount` on registration. -/
def scsiMountTag : Nat := 2

/-- Modelled from the spec: the process-wide variant registry populated by
`init` in `internal/clone` (gob.Register of the two concrete variants). -/
def registeredTags : List Nat := [vsmbShareTag, scsiMountTag]

/-- Payload encoding of a file-share mount. -/
def encodeVSMBShare (s : VSMBShare) : List GobToken :=
  [GobToken.str s.HostPath, GobToken.str s.GuestPath, GobToken.bool s.ReadOnly]

/-- Payload decoding of a file-share mount; returns the leftover stream. -/
def decodeVSMBShare : List GobToken → Option (VSMBShare × List GobToken)
  | GobToken.str h :: GobToken.str g :: GobToken.bool r :: rest =>
      some (⟨h, g, r⟩, rest)
  | _ => none

/-- Payload encoding of a block-device mount. -/
def encodeSCSIMount (m : SCSIMount) : List GobToken :=
  [GobToken.str m.HostPath, GobToken.nat m.Controller, GobToken.nat m.LUN]

/-- Payload decoding of a block-device mount; returns the leftover stream. -/
def decodeSCSIMount : List GobToken → Option (SCSIMount × List GobToken)
  | GobToken.str h :: GobToken.nat c :: GobToken.nat l :: rest =>
      some (⟨h, c, l⟩, rest)
  | _ => none

/-- An interface value is encoded as its registered concrete-type tag
followed by the variant's payload. -/
def encodeCloneable : Cloneable → List GobToken
  | Cloneable.vsmbShare s => GobToken.tag vsmbShareTag :: encodeVSMBShare s
  | Cloneable.scsiMount m => GobToken.tag scsiMountTag :: encodeSCSIMount m

/-- Decoding of one interface value: read the tag, dispatch to the decoder
the tag is registered to; an unregistered tag is a codec failure. -/
def decodeCloneable : List GobToken → Option (Cloneable × List GobToken)
  | GobToken.tag t :: rest =>
      if t = vsmbShareTag then
        (decodeVSMBShare rest).map (fun p => (Cloneable.vsmbShare p.1, p.2))
      else if t = scsiMountTag then
        (decodeSCSIMount rest).map (fun p => (Cloneable.scsiMount p.1, p.2))
      else none
  | _ => none

/-- Encoding of the resource list, element after element in order. -/
def encodeCloneableList (rs : List Cloneable) : List GobToken :=
  rs.foldr (fun r acc => encodeCloneable r ++ acc) []

/-- Decoding of `n` resource-list elements; returns the leftover stream. -/
def decodeCloneableList : Nat → List GobToken → Option (List Cloneable × List GobToken)
  | 0, rest => some ([], rest)
  | n + 1, toks =>
      match decodeCloneable toks with
      | none => none
      | some (c, rest) =>
          match decodeCloneableList n rest with
          | none => none
          | some (cs, rest2) => some (c :: cs, rest2)

/-- Modelled from the spec: gob's encoding of a `UVMTemplateConfig` value —
the id, the resource count, then the tagged elements. -/
def gobEncode (utc : UVMTemplateConfig) : List GobToken :=
  GobToken.str utc.UVMID :: GobToken.nat utc.Resources.length ::
    encodeCloneableList utc.Resources

/-- Modelled from the spec: gob's decoding of one `UVMTemplateConfig` value
from the head of the stream (gob reads one value; leftovers are ignored). -/
def gobDecode (toks : List GobToken) : Option UVMTemplateConfig :=
  match toks with
  | GobToken.str id :: GobToken.nat n :: rest =>
      match decodeCloneableList n rest with
      | some (cs, _) => some ⟨id, cs⟩
      | none => none
  | _ => none

/-- Go errors as this subsystem distinguishes them.  A nilable Go `error` is
`Option GoError`; `notFound` stands for `regstate.NotFoundError`,
`alreadyExists` for the backing store's key-exists failure, `msg` for an
error built by `fmt.Errorf`/`errors.Wrap`. -/
inductive GoError where
  | notFound
  | alreadyExists
  | msg (s : String)
deriving DecidableEq

/-- The text `err.Error()` yields (the two store kinds' texts are modelled;
`msg` carries its own). -/
def GoError.message : GoError → String
  | GoError.notFound => "registry key or value does not exist"
  | GoError.alreadyExists => "registry key already exists"
  | GoError.msg s => s

/-- `encodeTemplateConfig` (internal/clone): gob-encode the config.  Encoding
a value of the registered types cannot fail, so the error branch of the Go
function is dead here; the `Except` shape mirrors the Go signature. -/
def encodeTemplateConfig (utc : UVMTemplateConfig) : Except GoError (List GobToken) :=
  Except.ok (gobEncode utc)

/-- `decodeTemplateConfig` (internal/clone): gob-decode the bytes, wrapping a
gob failure in the function's own error message. -/
def decodeTemplateConfig (encodedBytes : List GobToken) : Except GoError UVMTemplateConfig :=
  match gobDecode encodedBytes with
  | some utc => Except.ok utc
  | none => Except.error (GoError.msg "Error while decoding template config")

/-! ## The registry-backed persisted store -/

/-- `persistedUVMConfig` (internal/clone): the encoded template blob plus the
stored/not-yet-stored marker. -/
structure persistedUVMConfig where
  RawData : List GobToken
  Stored : Bool
deriving DecidableEq

/-- Modelled from the spec: the durable keyed store under the fixed template
namespace (`configRoot`/`configKey`), one record per guest id.  `regstate.Open`
is modelled as succeeding (the store engine is an external collaborator). -/
abbrev Registry := List (String × persistedUVMConfig)

/-- The record the store holds for `ID`, when one exists. -/
def regLookup (reg : Registry) (ID : String) : Option persistedUVMConfig :=
  (reg.find? (fun p => p.1 == ID)).map Prod.snd

/-- Modelled from the spec: `Get(namespace, key, out)` — fails with the
`NotFound` kind when no record exists for `ID`. -/
def regGet (reg : Registry) (ID : String) : Except GoError persistedUVMConfig :=
  match regLookup reg ID with
  | some v => Except.ok v
  | none => Except.error GoError.notFound

/-- Modelled from the spec: `Create(namespace, key, value)` — fails if a
record for `ID` already exists, detected by the backing store. -/
def regCreate (reg : Registry) (ID : String) (v : persistedUVMConfig) :
    Except GoError Registry :=
  match regLookup reg ID with
  | some _ => Except.error GoError.alreadyExists
  | none => Except.ok ((ID, v) :: reg)

/-- Modelled from the spec: `Set(namespace, key, value)` — an update
(overwrite) of the existing record; `NotFound` when there is none. -/
def regSet (reg : Registry) (ID : String) (v : persistedUVMConfig) :
    Except GoError Registry :=
  match regLookup reg ID with
  | some _ => Except.ok (reg.map (fun p => if p.1 == ID then (ID, v) else p))
  | none => Except.error GoError.notFound

/-- Modelled from the spec: `Remove(namespace, key)` — deletes the record,
`NotFound` when there is none (the caller branches on that kind). -/
def regRemove (reg : Registry) (ID : String) : Except GoError Registry :=
  match regLookup reg ID with
  | some _ => Except.ok (reg.filter (fun p => !(p.1 == ID)))
  | none => Except.error GoError.notFound

/-- Modelled from the spec: `regstate.IsNotFoundError` — whether a (nilable)
Go error is of the `NotFound` kind.  A nil error (`none`) is of no kind at
all, so the check is false for it. -/
def IsNotFoundError : Option GoError → Bool
  | some GoError.notFound => true
  | _ => false

/-- `loadPersistedUVMConfig` (internal/clone): load the record for `ID`,
propagating the store's error.  The Go code pre-initializes the output
struct with `Stored: true` and lets gob decode over it; gob omits zero
values (`Stored: false` is never transmitted), so a loaded record always
carries `Stored = true`. -/
def loadPersistedUVMConfig (reg : Registry) (ID : String) :
    Except GoError persistedUVMConfig :=
  match regGet reg ID with
  | Except.error e => Except.error e
  | Except.ok v => Except.ok { RawData := v.RawData, Stored := true }

/-- `storePersistedUVMConfig` (internal/clone): create when `puc.Stored` is
false, update when true, and on success flip the in-memory record's `Stored`
to true.  The Go function mutates `puc` through a pointer; the triple
returned here is (result, registry after, record after). -/
def storePersistedUVMConfig (reg : Registry) (ID : String) (puc : persistedUVMConfig) :
    Except GoError Unit × Registry × persistedUVMConfig :=
  if puc.Stored then
    match regSet reg ID puc with
    | Except.error e => (Except.error e, reg, puc)
    | Except.ok reg' => (Except.ok (), reg', { puc with Stored := true })
  else
    match regCreate reg ID puc with
    | Except.error e => (Except.error e, reg, puc)
    | Except.ok reg' => (Except.ok (), reg', { puc with Stored := true })

/-- `removePersistedUVMConfig` (internal/clone): remove the record, treating
the store's `NotFound` (from `Open` or `Remove`) as success. -/
def removePersistedUVMConfig (reg : Registry) (ID : String) :
    Except GoError Unit × Registry :=
  match regRemove reg ID with
  | Except.error e =>
      if IsNotFoundError (some e) then (Except.ok (), reg) else (Except.error e, reg)
  | Except.ok reg' => (Except.ok (), reg')

/-- The outcome of a Go call that may also crash: `ok`, a returned error, or
a runtime panic (`panicked`). -/
inductive SaveOutcome where
  | ok
  | err (e : GoError)
  | panicked
deriving DecidableEq

/-- `SaveTemplateConfig` (internal/clone).  It loads the record for
`utc.UVMID` and requires that load to fail with `NotFound`.  When the load
SUCCEEDS (a record already exists) the Go code enters the error branch with
`err == nil` and evaluates `err.Error()` — a method call on a nil error
interface, which is a runtime panic, modelled by `SaveOutcome.panicked`.
Otherwise it encodes the config and stores a fresh record with
`Stored = false`. -/
def SaveTemplateConfig (reg : Registry) (utc : UVMTemplateConfig) :
    SaveOutcome × Registry :=
  let loadErr : Option GoError :=
    match loadPersistedUVMConfig reg utc.UVMID with
    | Except.ok _ => none
    | Except.error e => some e
  if !(IsNotFoundError loadErr) then
    match loadErr with
    | none => (SaveOutcome.panicked, reg)
    | some e =>
        (SaveOutcome.err (GoError.msg ("Parent VM(ID: " ++ utc.UVMID ++
          ") config shouldn't exit in registry (" ++ e.message ++ ") \n")), reg)
  else
    match encodeTemplateConfig utc with
    | Except.error e => (SaveOutcome.err e, reg)
    | Except.ok encodedBytes =>
        let puc : persistedUVMConfig := { RawData := encodedBytes, Stored := false }
        match storePersistedUVMConfig reg utc.UVMID puc with
        | (Except.error e, reg', _) => (SaveOutcome.err e, reg')
        | (Except.ok _, reg', _) => (SaveOutcome.ok, reg')

/-- `RemoveSavedTemplateConfig` (internal/clone): delegates to
`removePersistedUVMConfig`. -/
def RemoveSavedTemplateConfig (reg : Registry) (ID : String) :
    Except GoError Unit × Registry :=
  removePersistedUVMConfig reg ID

/-- `FetchTemplateConfig` (internal/clone): load the record for `ID`
(propagating the store's error verbatim), then decode its raw bytes. -/
def FetchTemplateConfig (reg : Registry) (ID : String) :
    Except GoError UVMTemplateConfig :=
  match loadPersistedUVMConfig reg ID with
  | Except.error e => Except.error e
  | Except.ok puc =>
      match decodeTemplateConfig puc.RawData with
      | Except.error e => Except.error e
      | Except.ok utc => Except.ok utc

/-! ## The template config assembler -/

/-- The guest (`uvm.UtilityVM`).  The struct's own declaration is outside
the repository's files; the attachment inventory is modelled from the spec
as slot-ordered sequences — `vsmbDirShares`/`vsmbFileShares` the file-share
slots, `scsiLocations` the block-mount slots per controller location — with
`none` for an empty slot. -/
structure UtilityVM where
  ID : String
  vsmbDirShares : List (Option VSMBShare)
  vsmbFileShares : List (Option VSMBShare)
  scsiLocations : List (List (Option SCSIMount))
deriving DecidableEq

/-- `GenerateTemplateConfig` (internal/uvm/clone.go): walk the directory
shares, then the file shares, then the SCSI locations, appending every
non-empty slot's resource to the list. -/
def UtilityVM.GenerateTemplateConfig (u : UtilityVM) : UVMTemplateConfig :=
  let r1 := u.vsmbDirShares.foldl
    (fun acc s => match s with
      | some v => acc ++ [Cloneable.vsmbShare v]
      | none => acc) []
  let r2 := u.vsmbFileShares.foldl
    (fun acc s => match s with
      | some v => acc ++ [Cloneable.vsmbShare v]
      | none => acc) r1
  let r3 := u.scsiLocations.foldl
    (fun acc loc => loc.foldl
      (fun acc2 m => match m with
        | some v => acc2 ++ [Cloneable.scsiMount v]
        | none => acc2) acc) r2
  { UVMID := u.ID, Resources := r3 }

/-- The file-share resources of a guest in slot order (directory shares
first, then file shares), empty slots skipped. -/
def sharesInOrder (u : UtilityVM) : List Cloneable :=
  (u.vsmbDirShares ++ u.vsmbFileShares).filterMap
    (fun s => s.map Cloneable.vsmbShare)

/-- The block-mount resources of a guest in location-then-slot order, empty
slots skipped. -/
def mountsInOrder (u : UtilityVM) : List Cloneable :=
  (u.scsiLocations.map (fun loc => loc.filterMap
    (fun m => m.map Cloneable.scsiMount))).flatten

/-! ## Network namespace setup -/

/-- Modelled from the spec: `hns.Namespace`, the endpoint's embedded
namespace reference. -/
structure HnsNamespace where
  ID : String
deriving DecidableEq

/-- Modelled from the spec: `hns.HNSEndpoint` — the provider's endpoint
object, carrying a mutable namespace-reference field (a nilable pointer in
Go, hence `Option`). -/
structure HNSEndpoint where
  Id : String
  Namespace : Option HnsNamespace
deriving DecidableEq

/-- Modelled from the spec: `hcn.HostComputeNamespace`, the namespace object
the provider returns.  `Id` is the identifier field the template path
overwrites; `rest` stands for the rest of the object, carried through
unchanged. -/
structure HcnNamespace where
  Id : String
  rest : Nat
deriving DecidableEq

/-- Modelled from the spec: the reserved cloning namespace id
(`hns.CLONING_DEFAULT_NETWORK_NAMESPACE_ID`), one fixed value used as the
guest-visible namespace id of every template and clone. -/
def CLONING_DEFAULT_NETWORK_NAMESPACE_ID : String :=
  "89EB8A86-E253-41FD-9800-E6D88EB2E18A"

/-- Modelled from the spec: the external namespace/endpoint provider and the
guest capability surface, as oracles.  Query results and hot-add outcomes
are arbitrary; `none` from a guest operation means success. -/
structure NetEnv where
  hnsGetNamespaceEndpoints : String → Except String (List String)
  getHNSEndpointByID : String → Except String HNSEndpoint
  getNamespaceByID : String → Except String HcnNamespace
  addNetNSRaw : HcnNamespace → Option String
  addEndpointsToNS : String → List HNSEndpoint → Option String
  removeNetNS : String → Option String

/-- One observable call `SetupNetworkNamespace` makes on the provider or the
guest, in order of occurrence. -/
inductive NetEvent where
  | queryEndpoints (nsid : String)
  | queryEndpointByID (id : String)
  | queryNamespace (nsid : String)
  | addNetNS (ns : HcnNamespace)
  | addEndpoints (nsid : String) (eps : List HNSEndpoint)
  | removeNetNS (nsid : String)
deriving DecidableEq

/-- The by-id lookup loop of `GetNamespaceEndpoints`
(internal/hcsoci/network.go): fetch each endpoint, aborting on the first
failure. -/
def getEndpointsLoop (env : NetEnv) : List String →
    Except String (List HNSEndpoint) × List NetEvent
  | [] => (Except.ok [], [])
  | id :: restIds =>
      match env.getHNSEndpointByID id with
      | Except.error e => (Except.error e, [NetEvent.queryEndpointByID id])
      | Except.ok ep =>
          match getEndpointsLoop env restIds with
          | (Except.error e, tr) => (Except.error e, NetEvent.queryEndpointByID id :: tr)
          | (Except.ok eps, tr) => (Except.ok (ep :: eps), NetEvent.queryEndpointByID id :: tr)

/-- `GetNamespaceEndpoints` (internal/hcsoci/network.go): list the endpoint
ids bound to `netNS`, then fetch each endpoint object. -/
def GetNamespaceEndpoints (env : NetEnv) (netNS : String) :
    Except String (List HNSEndpoint) × List NetEvent :=
  match env.hnsGetNamespaceEndpoints netNS with
  | Except.error e => (Except.error e, [NetEvent.queryEndpoints netNS])
  | Except.ok ids =>
      match getEndpointsLoop env ids with
      | (r, tr) => (r, NetEvent.queryEndpoints netNS :: tr)

/-- `SetupNetworkNamespace` (internal/hcsoci/network.go).  The endpoint
lookup always uses the real `nsid`; templates and clones use the reserved
cloning id inside the UVM; clones skip the namespace hot-add; templates and
clones have each endpoint's namespace reference rewritten to the reserved
id; a failed endpoint hot-add triggers a best-effort namespace removal whose
own outcome is only logged. -/
def SetupNetworkNamespace (env : NetEnv) (nsid : String)
    (isTemplate isClone : Bool) : Except String Unit × List NetEvent :=
  let nsidInsideUVM :=
    if isTemplate || isClone then CLONING_DEFAULT_NETWORK_NAMESPACE_ID else nsid
  match GetNamespaceEndpoints env nsid with
  | (Except.error e, tr1) => (Except.error e, tr1)
  | (Except.ok endpoints, tr1) =>
      let nsStep : Except String Unit × List NetEvent :=
        if isClone then (Except.ok (), [])
        else
          match env.getNamespaceByID nsid with
          | Except.error e => (Except.error e, [NetEvent.queryNamespace nsid])
          | Except.ok ns0 =>
              let hcnNamespace := if isTemplate then { ns0 with Id := nsidInsideUVM } else ns0
              match env.addNetNSRaw hcnNamespace with
              | some e => (Except.error e,
                  [NetEvent.queryNamespace nsid, NetEvent.addNetNS hcnNamespace])
              | none => (Except.ok (),
                  [NetEvent.queryNamespace nsid, NetEvent.addNetNS hcnNamespace])
      match nsStep with
      | (Except.error e, tr2) => (Except.error e, tr1 ++ tr2)
      | (Except.ok _, tr2) =>
          let endpoints2 :=
            if isClone || isTemplate then
              endpoints.map (fun ep =>
                { ep with Namespace := some { ID := nsidInsideUVM } })
            else endpoints
          match env.addEndpointsToNS nsidInsideUVM endpoints2 with
          | none => (Except.ok (),
              tr1 ++ tr2 ++ [NetEvent.addEndpoints nsidInsideUVM endpoints2])
          | some e => (Except.error e,
              tr1 ++ tr2 ++ [NetEvent.addEndpoints nsidInsideUVM endpoints2,
                NetEvent.removeNetNS nsidInsideUVM])

/-! ## The template-save orchestration -/

/-- Modelled from the spec: the guest capability surface and compute-system
control plane the orchestration calls into, as oracles (`none` = success). -/
structure HostEnv where
  removeAllNICs : Option GoError
  closeGCSConnection : Option GoError
  pause : Option GoError
  save : String → Option GoError

/-- One step of the template-save sequence, in order of occurrence. -/
inductive SaveStep where
  | removeNICs
  | closeGCS
  | persistConfig
  | pause
  | save (options : String)
deriving DecidableEq

/-- `hcsSaveOptions` (internal/uvm/clone.go): the compute-system save
options selecting a template save. -/
def hcsSaveOptions : String := "\x7b\"SaveType\": \"AsTemplate\"\x7d"

/-- `errors.Wrap(err, msg)`: the wrapped error's text is the message, a
colon and the original error's text. -/
def wrapErr (msg : String) (e : GoError) : GoError :=
  GoError.msg (msg ++ ": " ++ e.message)

/-- `UtilityVM.SaveAsTemplate` (internal/uvm/clone.go): pause the guest,
then save it with the template options, wrapping either failure. -/
def UtilityVM.SaveAsTemplate (env : HostEnv) : Except GoError Unit × List SaveStep :=
  match env.pause with
  | some e => (Except.error (wrapErr "error pausing the VM" e), [SaveStep.pause])
  | none =>
      match env.save hcsSaveOptions with
      | some e => (Except.error (wrapErr "error saving the VM" e),
          [SaveStep.pause, SaveStep.save hcsSaveOptions])
      | none => (Except.ok (), [SaveStep.pause, SaveStep.save hcsSaveOptions])

/-- `saveAsTemplate` (cmd/containerd-shim-runhcs-v1/clone.go): detach all
NICs, close the guest control channel, capture and persist the template
config, then pause-and-save, stopping at the first failure.  The registry is
threaded through `SaveTemplateConfig`; a panic there (see
`SaveTemplateConfig`) propagates as `SaveOutcome.panicked`. -/
def saveAsTemplate (env : HostEnv) (reg : Registry) (host : UtilityVM) :
    SaveOutcome × List SaveStep × Registry :=
  match env.removeAllNICs with
  | some e => (SaveOutcome.err e, [SaveStep.removeNICs], reg)
  | none =>
      match env.closeGCSConnection with
      | some e => (SaveOutcome.err e, [SaveStep.removeNICs, SaveStep.closeGCS], reg)
      | none =>
          match SaveTemplateConfig reg host.GenerateTemplateConfig with
          | (SaveOutcome.err e, reg') => (SaveOutcome.err e,
              [SaveStep.removeNICs, SaveStep.closeGCS, SaveStep.persistConfig], reg')
          | (SaveOutcome.panicked, reg') => (SaveOutcome.panicked,
              [SaveStep.removeNICs, SaveStep.closeGCS, SaveStep.persistConfig], reg')
          | (SaveOutcome.ok, reg') =>
              match UtilityVM.SaveAsTemplate env with
              | (Except.error e, tr) => (SaveOutcome.err e,
                  [SaveStep.removeNICs, SaveStep.closeGCS, SaveStep.persistConfig] ++ tr, reg')
              | (Except.ok _, tr) => (SaveOutcome.ok,
                  [SaveStep.removeNICs, SaveStep.closeGCS, SaveStep.persistConfig] ++ tr, reg')

/-- The full forward step sequence of a successful template save. -/
def fullSaveSeq : List SaveStep :=
  [SaveStep.removeNICs, SaveStep.closeGCS, SaveStep.persistConfig,
    SaveStep.pause, SaveStep.save hcsSaveOptions]

/-! ## Helper lemmas -/

/-- After filtering out every entry keyed `ID`, no record for `ID` remains. -/
theorem regLookup_filter_self (reg : Registry) (ID : String) :
    regLookup (reg.filter (fun p => !(p.1 == ID))) ID = none := by
  induction reg with
  | nil => rfl
  | cons hd tl ih =>
      by_cases h : hd.1 == ID
      · simp [List.filter_cons, h, ih]
      · simp only [List.filter_cons, h]
        simp [regLookup, List.find?, h, ih]

/-- Decoding one encoded element consumes exactly its tokens. -/
theorem decodeCloneable_encode (c : Cloneable) (rest : List GobToken) :
    decodeCloneable (encodeCloneable c ++ rest) = some (c, rest) := by
  cases c <;> rfl

/-- Decoding `rs.length` encoded elements returns exactly `rs`. -/
theorem decodeCloneableList_encode (rs : List Cloneable) (rest : List GobToken) :
    decodeCloneableList rs.length (encodeCloneableList rs ++ rest) = some (rs, rest) := by
  induction rs with
  | nil => rfl
  | cons c cs ih =>
      show decodeCloneableList (cs.length + 1)
        ((encodeCloneable c ++ encodeCloneableList cs) ++ rest) = _
      rw [List.append_assoc]
      simp [decodeCloneableList, decodeCloneable_encode, ih]

/-- The share fold appends the non-empty slots, in slot order. -/
theorem foldl_vsmb_append (l : List (Option VSMBShare)) (acc : List Cloneable) :
    l.foldl (fun a s => match s with
        | some v => a ++ [Cloneable.vsmbShare v]
        | none => a) acc
      = acc ++ l.filterMap (fun s => s.map Cloneable.vsmbShare) := by
  induction l generalizing acc with
  | nil => simp
  | cons hd tl ih => cases hd <;> simp [ih]

/-- The inner mount fold appends the non-empty slots, in slot order. -/
theorem foldl_scsi_inner_append (loc : List (Option SCSIMount)) (acc : List Cloneable) :
    loc.foldl (fun a m => match m with
        | some v => a ++ [Cloneable.scsiMount v]
        | none => a) acc
      = acc ++ loc.filterMap (fun m => m.map Cloneable.scsiMount) := by
  induction loc generalizing acc with
  | nil => simp
  | cons hd tl ih => cases hd <;> simp [ih]

/-- The outer mount fold appends the non-empty slots, location by location. -/
theorem foldl_scsi_append (ls : List (List (Option SCSIMount))) (acc : List Cloneable) :
    ls.foldl (fun a loc => loc.foldl (fun a2 m => match m with
        | some v => a2 ++ [Cloneable.scsiMount v]
        | none => a2) a) acc
      = acc ++ (ls.map (fun loc => loc.filterMap
          (fun m => m.map Cloneable.scsiMount))).flatten := by
  induction ls generalizing acc with
  | nil => simp
  | cons hd tl ih =>
      simp only [List.foldl_cons, List.map_cons, List.flatten_cons]
      rw [foldl_scsi_inner_append, ih, List.append_assoc]

/-! ## The claims -/

/-- C7: `RemoveSavedTemplateConfig` is idempotent: on an id with no
persisted record it returns success with the store unchanged; moreover every
removal succeeds and leaves no record for the id, so a second remove after a
successful remove also succeeds. -/
theorem C7_remove_idempotent (reg : Registry) (ID : String) :
    (regLookup reg ID = none →
      RemoveSavedTemplateConfig reg ID = (Except.ok (), reg)) ∧
    (RemoveSavedTemplateConfig reg ID).1 = Except.ok () ∧
    regLookup (RemoveSavedTemplateConfig reg ID).2 ID = none := by
  cases h : regLookup reg ID with
  | none =>
      refine ⟨fun _ => ?_, ?_, ?_⟩ <;>
        simp [RemoveSavedTemplateConfig, removePersistedUVMConfig, regRemove, h,
          IsNotFoundError]
  | some v =>
      refine ⟨fun hc => by simp [h] at hc, ?_, ?_⟩ <;>
        simp [RemoveSavedTemplateConfig, removePersistedUVMConfig, regRemove, h,
          regLookup_filter_self]

/-- C6: `FetchTemplateConfig` on an id with no persisted record fails with
the backing store's `NotFound` error propagated verbatim (in particular it
is never the codec's decoding error, which is a `GoError.msg`). -/
theorem C6_fetch_unknown_notFound (reg : Registry) (ID : String)
    (h : regLookup reg ID = none) :
    FetchTemplateConfig reg ID = Except.error GoError.notFound := by
  simp [FetchTemplateConfig, loadPersistedUVMConfig, regGet, h]

/-- C6 witness: the empty store at a concrete id. -/
theorem C6_fetch_unknown_notFound_witness :
    regLookup ([] : Registry) "vm-123" = none ∧
    FetchTemplateConfig ([] : Registry) "vm-123" = Except.error GoError.notFound :=
  ⟨rfl, C6_fetch_unknown_notFound ([] : Registry) "vm-123" rfl⟩

/-- C4: `storePersistedUVMConfig` performs a create on the backing store
when `Stored` is false (failing, with store and record unchanged, when a
record for `ID` already exists) and an update (overwrite) when `Stored` is
true (failing when none exists); exactly on success is the in-memory
record's `Stored` flag set to true, and on failure the record is returned
unchanged. -/
theorem C4_store_create_update_dispatch (reg : Registry) (ID : String)
    (puc : persistedUVMConfig) :
    (puc.Stored = false → regLookup reg ID = none →
      storePersistedUVMConfig reg ID puc =
        (Except.ok (), (ID, puc) :: reg, { puc with Stored := true })) ∧
    (puc.Stored = false → ∀ v, regLookup reg ID = some v →
      storePersistedUVMConfig reg ID puc =
        (Except.error GoError.alreadyExists, reg, puc)) ∧
    (puc.Stored = true → ∀ v, regLookup reg ID = some v →
      storePersistedUVMConfig reg ID puc =
        (Except.ok (), reg.map (fun p => if p.1 == ID then (ID, puc) else p), puc)) ∧
    (puc.Stored = true → regLookup reg ID = none →
      storePersistedUVMConfig reg ID puc = (Except.error GoError.notFound, reg, puc)) ∧
    ((storePersistedUVMConfig reg ID puc).1 = Except.ok () →
      (storePersistedUVMConfig reg ID puc).2.2.Stored = true) ∧
    (∀ e, (storePersistedUVMConfig reg ID puc).1 = Except.error e →
      (storePersistedUVMConfig reg ID puc).2.2 = puc) := by
  obtain ⟨raw, st⟩ := puc
  cases st <;> cases h : regLookup reg ID <;>
    simp [storePersistedUVMConfig, regSet, regCreate, h]

/-- C1 demonstration data: a template config with one resource of each
registered variant. -/
def demoShare : VSMBShare :=
  { HostPath := "C:\\share", GuestPath := "/mnt/share", ReadOnly := true }

/-- C1 demonstration data: a block-device mount. -/
def demoMount : SCSIMount :=
  { HostPath := "C:\\scratch.vhdx", Controller := 0, LUN := 3 }

/-- C1 demonstration data: the template config of guest `vm-123`. -/
def demoUtc : UVMTemplateConfig :=
  { UVMID := "vm-123",
    Resources := [Cloneable.vsmbShare demoShare, Cloneable.scsiMount demoMount] }

/-- C1: on an empty store the first `SaveTemplateConfig` succeeds, but the
second call with the same id PANICS (`err.Error()` is evaluated with a nil
`err`, since the load succeeded and `IsNotFoundError(nil)` is false) instead
of returning the "already exists" configuration error; the persisted record
from the first call is left unchanged by the crashing second call. -/
theorem C1_second_save_panics :
    (SaveTemplateConfig ([] : Registry) demoUtc).1 = SaveOutcome.ok ∧
    (SaveTemplateConfig (SaveTemplateConfig ([] : Registry) demoUtc).2 demoUtc).1 =
      SaveOutcome.panicked ∧
    (SaveTemplateConfig (SaveTemplateConfig ([] : Registry) demoUtc).2 demoUtc).2 =
      (SaveTemplateConfig ([] : Registry) demoUtc).2 := by
  refine ⟨rfl, rfl, rfl⟩

/-- C3: encoding a template config and decoding the resulting bytes yields
the config back exactly — same id, and a resource list equal in length,
order, concrete variant and field values (any mix of the two registered
variants). -/
theorem C3_codec_roundtrip (utc : UVMTemplateConfig) :
    encodeTemplateConfig utc = Except.ok (gobEncode utc) ∧
    decodeTemplateConfig (gobEncode utc) = Except.ok utc := by
  refine ⟨rfl, ?_⟩
  have h := decodeCloneableList_encode utc.Resources []
  rw [List.append_nil] at h
  simp [decodeTemplateConfig, gobDecode, gobEncode, h]

/-- C8: `GenerateTemplateConfig` never fails (it is a total function), keeps
the guest's id, and enumerates the attachments in the stable order "all
shares before all mounts, slot order within each kind", skipping empty
slots; a guest with no attachments yields the empty resource list. -/
theorem C8_generate_order (u : UtilityVM) :
    u.GenerateTemplateConfig.UVMID = u.ID ∧
    u.GenerateTemplateConfig.Resources = sharesInOrder u ++ mountsInOrder u ∧
    ((∀ s ∈ u.vsmbDirShares, s = none) → (∀ s ∈ u.vsmbFileShares, s = none) →
      (∀ loc ∈ u.scsiLocations, ∀ m ∈ loc, m = none) →
      u.GenerateTemplateConfig.Resources = []) := by
  have h2 : u.GenerateTemplateConfig.Resources = sharesInOrder u ++ mountsInOrder u := by
    show (u.scsiLocations.foldl
        (fun a loc => loc.foldl (fun a2 m => match m with
            | some v => a2 ++ [Cloneable.scsiMount v]
            | none => a2) a)
        (u.vsmbFileShares.foldl (fun a s => match s with
            | some v => a ++ [Cloneable.vsmbShare v]
            | none => a)
          (u.vsmbDirShares.foldl (fun a s => match s with
            | some v => a ++ [Cloneable.vsmbShare v]
            | none => a) []))) = sharesInOrder u ++ mountsInOrder u
    rw [foldl_vsmb_append, foldl_vsmb_append, foldl_scsi_append]
    simp [sharesInOrder, mountsInOrder, List.filterMap_append, List.append_assoc]
  refine ⟨rfl, h2, fun hd hf hs => ?_⟩
  rw [h2]
  have hsh : sharesInOrder u = [] := by
    simp only [sharesInOrder, List.filterMap_eq_nil_iff]
    intro s hmem
    rcases List.mem_append.mp hmem with hm | hm
    · rw [hd s hm]; rfl
    · rw [hf s hm]; rfl
  have hmo : mountsInOrder u = [] := by
    simp only [mountsInOrder, List.flatten_eq_nil_iff]
    intro l hl
    rcases List.mem_map.mp hl with ⟨loc, hloc, rfl⟩
    simp only [List.filterMap_eq_nil_iff]
    intro m hm
    rw [hs loc hloc m hm]; rfl
  rw [hsh, hmo]
  rfl

/-! ## Network setup: execution characterization -/

/-- The namespace id used inside the UVM (`nsidInsideUVM`). -/
def gidOf (t c : Bool) (nsid : String) : String :=
  if t || c then CLONING_DEFAULT_NETWORK_NAMESPACE_ID else nsid

/-- The namespace object hot-added for non-clones: the fetched object, its
identifier overwritten for templates. -/
def nsObj (t : Bool) (ns0 : HcnNamespace) : HcnNamespace :=
  if t then { ns0 with Id := CLONING_DEFAULT_NETWORK_NAMESPACE_ID } else ns0

/-- The endpoint list handed to the guest: namespace references rewritten to
the reserved id for templates and clones, untouched otherwise. -/
def epsOf (t c : Bool) (eps0 : List HNSEndpoint) : List HNSEndpoint :=
  if c || t then
    eps0.map (fun ep =>
      { ep with Namespace := some ⟨CLONING_DEFAULT_NETWORK_NAMESPACE_ID⟩ })
  else eps0

/-- Every event of the endpoint lookup loop is a by-id endpoint query. -/
theorem getEndpointsLoop_trace (env : NetEnv) (ids : List String) :
    ∀ e ∈ (getEndpointsLoop env ids).2, ∃ i, e = NetEvent.queryEndpointByID i := by
  induction ids with
  | nil => simp [getEndpointsLoop]
  | cons id rest ih =>
      intro x hx
      simp only [getEndpointsLoop] at hx
      cases hq : env.getHNSEndpointByID id with
      | error err =>
          rw [hq] at hx
          simp at hx
          exact ⟨id, hx⟩
      | ok ep =>
          rw [hq] at hx
          rcases hrec : getEndpointsLoop env rest with ⟨r, tr⟩
          rw [hrec] at hx
          have ihtr : ∀ y ∈ tr, ∃ i, y = NetEvent.queryEndpointByID i := by
            intro y hy
            exact ih y (by rw [hrec]; exact hy)
          cases r <;> simp at hx <;> rcases hx with rfl | hx
          · exact ⟨id, rfl⟩
          · exact ihtr x hx
          · exact ⟨id, rfl⟩
          · exact ihtr x hx

/-- The trace of `GetNamespaceEndpoints` starts with the namespace-endpoint
query at the REAL id, followed only by by-id endpoint queries. -/
theorem getNamespaceEndpoints_trace (env : NetEnv) (netNS : String) :
    ∃ tl, (GetNamespaceEndpoints env netNS).2 = NetEvent.queryEndpoints netNS :: tl ∧
      ∀ e ∈ tl, ∃ i, e = NetEvent.queryEndpointByID i := by
  cases h : env.hnsGetNamespaceEndpoints netNS with
  | error e => exact ⟨[], by simp [GetNamespaceEndpoints, h], by simp⟩
  | ok ids =>
      rcases hl : getEndpointsLoop env ids with ⟨r, tr⟩
      refine ⟨tr, by simp [GetNamespaceEndpoints, h, hl], ?_⟩
      intro x hx
      exact getEndpointsLoop_trace env ids x (by rw [hl]; exact hx)

/-- The complete case analysis of one `SetupNetworkNamespace` run: either
the endpoint query fails, the namespace fetch fails (non-clones), the
namespace hot-add fails (non-clones), or the namespace step passes and the
run is decided by the endpoint hot-add, with the best-effort namespace
removal appearing exactly in its failure case. -/
theorem setup_exec (env : NetEnv) (nsid : String) (t c : Bool) :
    (∃ e, (GetNamespaceEndpoints env nsid).1 = Except.error e ∧
      SetupNetworkNamespace env nsid t c =
        (Except.error e, (GetNamespaceEndpoints env nsid).2)) ∨
    (∃ eps0 e, (GetNamespaceEndpoints env nsid).1 = Except.ok eps0 ∧ c = false ∧
      env.getNamespaceByID nsid = Except.error e ∧
      SetupNetworkNamespace env nsid t c = (Except.error e,
        (GetNamespaceEndpoints env nsid).2 ++ [NetEvent.queryNamespace nsid])) ∨
    (∃ eps0 ns0 e, (GetNamespaceEndpoints env nsid).1 = Except.ok eps0 ∧ c = false ∧
      env.getNamespaceByID nsid = Except.ok ns0 ∧
      env.addNetNSRaw (nsObj t ns0) = some e ∧
      SetupNetworkNamespace env nsid t c = (Except.error e,
        (GetNamespaceEndpoints env nsid).2 ++
          [NetEvent.queryNamespace nsid, NetEvent.addNetNS (nsObj t ns0)])) ∨
    (∃ eps0 tr2, (GetNamespaceEndpoints env nsid).1 = Except.ok eps0 ∧
      ((c = true ∧ tr2 = []) ∨
       (c = false ∧ ∃ ns0, env.getNamespaceByID nsid = Except.ok ns0 ∧
         env.addNetNSRaw (nsObj t ns0) = none ∧
         tr2 = [NetEvent.queryNamespace nsid, NetEvent.addNetNS (nsObj t ns0)])) ∧
      ((env.addEndpointsToNS (gidOf t c nsid) (epsOf t c eps0) = none ∧
        SetupNetworkNamespace env nsid t c = (Except.ok (),
          (GetNamespaceEndpoints env nsid).2 ++ tr2 ++
            [NetEvent.addEndpoints (gidOf t c nsid) (epsOf t c eps0)])) ∨
       (∃ e, env.addEndpointsToNS (gidOf t c nsid) (epsOf t c eps0) = some e ∧
        SetupNetworkNamespace env nsid t c = (Except.error e,
          (GetNamespaceEndpoints env nsid).2 ++ tr2 ++
            [NetEvent.addEndpoints (gidOf t c nsid) (epsOf t c eps0),
             NetEvent.removeNetNS (gidOf t c nsid)])))) := by
  rcases hge : GetNamespaceEndpoints env nsid with ⟨r0, tr1⟩
  cases r0 with
  | error e =>
      left
      exact ⟨e, rfl, by simp [SetupNetworkNamespace, hge]⟩
  | ok eps0 =>
      cases c with
      | true =>
          right; right; right
          refine ⟨eps0, [], rfl, Or.inl ⟨rfl, rfl⟩, ?_⟩
          cases hae : env.addEndpointsToNS (gidOf t true nsid) (epsOf t true eps0) with
          | none =>
              left
              refine ⟨rfl, ?_⟩
              simp only [gidOf, epsOf, Bool.or_true, Bool.true_or, if_true] at hae
              simp [SetupNetworkNamespace, hge, gidOf, epsOf, hae]
          | some e =>
              right
              refine ⟨e, rfl, ?_⟩
              simp only [gidOf, epsOf, Bool.or_true, Bool.true_or, if_true] at hae
              simp [SetupNetworkNamespace, hge, gidOf, epsOf, hae]
      | false =>
          cases hns : env.getNamespaceByID nsid with
          | error e =>
              right; left
              exact ⟨eps0, e, rfl, rfl, rfl, by simp [SetupNetworkNamespace, hge, hns]⟩
          | ok ns0 =>
              cases har : env.addNetNSRaw (nsObj t ns0) with
              | some e =>
                  right; right; left
                  refine ⟨eps0, ns0, e, rfl, rfl, rfl, har, ?_⟩
                  simp only [nsObj] at har
                  cases t <;> simp at har <;>
                    simp [SetupNetworkNamespace, hge, hns, nsObj, har]
              | none =>
                  right; right; right
                  refine ⟨eps0, [NetEvent.queryNamespace nsid,
                    NetEvent.addNetNS (nsObj t ns0)], rfl,
                    Or.inr ⟨rfl, ns0, rfl, har, rfl⟩, ?_⟩
                  cases hae : env.addEndpointsToNS (gidOf t false nsid)
                      (epsOf t false eps0) with
                  | none =>
                      left
                      refine ⟨rfl, ?_⟩
                      simp only [nsObj] at har
                      simp only [gidOf, epsOf, Bool.or_false, Bool.false_or] at hae
                      cases t <;> simp at har hae <;>
                        simp [SetupNetworkNamespace, hge, hns, nsObj, gidOf, epsOf,
                          har, hae]
                  | some e =>
                      right
                      refine ⟨e, rfl, ?_⟩
                      simp only [nsObj] at har
                      simp only [gidOf, epsOf, Bool.or_false, Bool.false_or] at hae
                      cases t <;> simp at har hae <;>
                        simp [SetupNetworkNamespace, hge, hns, nsObj, gidOf, epsOf,
                          har, hae]

/-- Events of the endpoint-lookup loop are only by-id queries, so no other
event kind occurs among them. -/
theorem events_shape {tl0 : List NetEvent}
    (htl0 : ∀ e ∈ tl0, ∃ i, e = NetEvent.queryEndpointByID i) :
    (∀ x, NetEvent.queryEndpoints x ∈ tl0 → False) ∧
    (∀ x, NetEvent.queryNamespace x ∈ tl0 → False) ∧
    (∀ ns, NetEvent.addNetNS ns ∈ tl0 → False) ∧
    (∀ n eps, NetEvent.addEndpoints n eps ∈ tl0 → False) ∧
    (∀ x, NetEvent.removeNetNS x ∈ tl0 → False) := by
  refine ⟨?_, ?_, ?_, ?_, ?_⟩
  · intro x hx; rcases htl0 _ hx with ⟨i, hi⟩; cases hi
  · intro x hx; rcases htl0 _ hx with ⟨i, hi⟩; cases hi
  · intro ns hx; rcases htl0 _ hx with ⟨i, hi⟩; cases hi
  · intro n eps hx; rcases htl0 _ hx with ⟨i, hi⟩; cases hi
  · intro x hx; rcases htl0 _ hx with ⟨i, hi⟩; cases hi

/-- The property claimed of `SetupNetworkNamespace`: the provider lookups
use the real id; templates hot-add the fetched namespace object with its
identifier overwritten to the reserved constant; clones hot-add no namespace
at all; for templates and clones the endpoint hot-add uses the reserved
constant and every endpoint's namespace reference is rewritten to it; for
ordinary guests the real id is used throughout and nothing is rewritten. -/
def C2concl (env : NetEnv) (nsid : String) (t c : Bool) : Prop :=
  (∃ tl, (SetupNetworkNamespace env nsid t c).2 = NetEvent.queryEndpoints nsid :: tl) ∧
  (∀ x, NetEvent.queryEndpoints x ∈ (SetupNetworkNamespace env nsid t c).2 → x = nsid) ∧
  (∀ n, NetEvent.queryNamespace n ∈ (SetupNetworkNamespace env nsid t c).2 → n = nsid) ∧
  (c = true → ∀ ns, NetEvent.addNetNS ns ∉ (SetupNetworkNamespace env nsid t c).2) ∧
  (t = true → ∀ ns, NetEvent.addNetNS ns ∈ (SetupNetworkNamespace env nsid t c).2 →
    ns.Id = CLONING_DEFAULT_NETWORK_NAMESPACE_ID ∧
    ∃ ns0, env.getNamespaceByID nsid = Except.ok ns0 ∧
      ns = { ns0 with Id := CLONING_DEFAULT_NETWORK_NAMESPACE_ID }) ∧
  ((t || c) = true → ∀ n eps,
    NetEvent.addEndpoints n eps ∈ (SetupNetworkNamespace env nsid t c).2 →
    n = CLONING_DEFAULT_NETWORK_NAMESPACE_ID ∧
    ∀ ep ∈ eps, ep.Namespace = some ⟨CLONING_DEFAULT_NETWORK_NAMESPACE_ID⟩) ∧
  (t = false → c = false →
    (∀ ns, NetEvent.addNetNS ns ∈ (SetupNetworkNamespace env nsid t c).2 →
      env.getNamespaceByID nsid = Except.ok ns) ∧
    (∀ n eps, NetEvent.addEndpoints n eps ∈ (SetupNetworkNamespace env nsid t c).2 →
      n = nsid ∧ (GetNamespaceEndpoints env nsid).1 = Except.ok eps))

/-- The trace of a run always starts with the endpoint query at the real
namespace id. -/
theorem setup_trace_head (env : NetEnv) (nsid : String) (t c : Bool) :
    ∃ tl, (SetupNetworkNamespace env nsid t c).2 =
      NetEvent.queryEndpoints nsid :: tl := by
  obtain ⟨tl0, htr, _⟩ := getNamespaceEndpoints_trace env nsid
  rcases setup_exec env nsid t c with
    ⟨e, h1, hset⟩ | ⟨eps0, e, h1, hc, h2, hset⟩ |
    ⟨eps0, ns0, e, h1, hc, h2, h3, hset⟩ |
    ⟨eps0, tr2, h1, hns2, hrest⟩
  · exact ⟨tl0, by rw [hset, htr]⟩
  · exact ⟨tl0 ++ [NetEvent.queryNamespace nsid], by rw [hset, htr]; simp⟩
  · exact ⟨tl0 ++ [NetEvent.queryNamespace nsid, NetEvent.addNetNS (nsObj t ns0)],
      by rw [hset, htr]; simp⟩
  · rcases hrest with ⟨hae, hset⟩ | ⟨e, hae, hset⟩
    · exact ⟨tl0 ++ tr2 ++ [NetEvent.addEndpoints (gidOf t c nsid)
        (epsOf t c eps0)], by rw [hset, htr]; simp⟩
    · exact ⟨tl0 ++ tr2 ++ [NetEvent.addEndpoints (gidOf t c nsid)
        (epsOf t c eps0), NetEvent.removeNetNS (gidOf t c nsid)],
        by rw [hset, htr]; simp⟩

/-- Every event of a run is one of: the endpoint query at the real id, a
by-id endpoint query, the namespace fetch at the real id, the namespace
hot-add of the fetched object (non-clones only, identifier overwritten for
templates), the endpoint hot-add at the inside-UVM id with the inside-UVM
endpoint list, or the best-effort namespace removal at the inside-UVM id. -/
theorem setup_events (env : NetEnv) (nsid : String) (t c : Bool) :
    ∀ ev ∈ (SetupNetworkNamespace env nsid t c).2,
      ev = NetEvent.queryEndpoints nsid ∨
      (∃ i, ev = NetEvent.queryEndpointByID i) ∨
      ev = NetEvent.queryNamespace nsid ∨
      (c = false ∧ ∃ ns0, env.getNamespaceByID nsid = Except.ok ns0 ∧
        ev = NetEvent.addNetNS (nsObj t ns0)) ∨
      (∃ eps0, (GetNamespaceEndpoints env nsid).1 = Except.ok eps0 ∧
        ev = NetEvent.addEndpoints (gidOf t c nsid) (epsOf t c eps0)) ∨
      ev = NetEvent.removeNetNS (gidOf t c nsid) := by
  obtain ⟨tl0, htr, htl0⟩ := getNamespaceEndpoints_trace env nsid
  intro ev hev
  rcases setup_exec env nsid t c with
    ⟨e, h1, hset⟩ | ⟨eps0, e, h1, hc, h2, hset⟩ |
    ⟨eps0, ns0, e, h1, hc, h2, h3, hset⟩ |
    ⟨eps0, tr2, h1, hns2, hrest⟩
  · rw [hset, htr] at hev
    rcases List.mem_cons.mp hev with rfl | h
    · left; rfl
    · right; left; exact htl0 _ h
  · subst hc
    rw [hset, htr] at hev
    simp only [List.cons_append, List.mem_cons, List.mem_append,
      List.mem_singleton, List.not_mem_nil, or_false] at hev
    rcases hev with rfl | h | rfl
    · left; rfl
    · right; left; exact htl0 _ h
    · right; right; left; rfl
  · subst hc
    rw [hset, htr] at hev
    simp only [List.cons_append, List.mem_cons, List.mem_append,
      List.mem_singleton, List.not_mem_nil, or_false] at hev
    rcases hev with rfl | h | rfl | rfl
    · left; rfl
    · right; left; exact htl0 _ h
    · right; right; left; rfl
    · right; right; right; left; exact ⟨rfl, ns0, h2, rfl⟩
  · rcases hns2 with ⟨hc, rfl⟩ | ⟨hc, ns0, h2, h3, rfl⟩ <;> subst hc
    · rcases hrest with ⟨hae, hset⟩ | ⟨e, hae, hset⟩ <;> rw [hset, htr] at hev <;>
        simp only [List.cons_append, List.append_nil, List.mem_cons,
          List.mem_append, List.mem_singleton, List.not_mem_nil, or_false] at hev
      · rcases hev with rfl | h | rfl
        · left; rfl
        · right; left; exact htl0 _ h
        · right; right; right; right; left; exact ⟨eps0, h1, rfl⟩
      · rcases hev with rfl | h | rfl | rfl
        · left; rfl
        · right; left; exact htl0 _ h
        · right; right; right; right; left; exact ⟨eps0, h1, rfl⟩
        · right; right; right; right; right; rfl
    · rcases hrest with ⟨hae, hset⟩ | ⟨e, hae, hset⟩ <;> rw [hset, htr] at hev <;>
        simp only [List.cons_append, List.mem_cons, List.mem_append,
          List.mem_singleton, List.not_mem_nil, or_false, or_assoc] at hev
      · rcases hev with rfl | h | rfl | rfl | rfl
        · left; rfl
        · right; left; exact htl0 _ h
        · right; right; left; rfl
        · right; right; right; left; exact ⟨rfl, ns0, h2, rfl⟩
        · right; right; right; right; left; exact ⟨eps0, h1, rfl⟩
      · rcases hev with rfl | h | rfl | rfl | rfl | rfl
        · left; rfl
        · right; left; exact htl0 _ h
        · right; right; left; rfl
        · right; right; right; left; exact ⟨rfl, ns0, h2, rfl⟩
        · right; right; right; right; left; exact ⟨eps0, h1, rfl⟩
        · right; right; right; right; right; rfl

/-- C2: for every provider environment, real namespace id and flag setting
with at most one flag set, `SetupNetworkNamespace` satisfies the claimed
remapping behaviour (`C2concl`): the endpoint lookup always uses the real
id; a template's hot-added namespace object is the one fetched by real id
with its identifier overwritten to the reserved constant; a clone hot-adds
no namespace; templates and clones hot-add endpoints under the reserved
constant with every endpoint's namespace reference rewritten to it; an
ordinary guest uses the real id throughout with nothing rewritten. -/
theorem C2_setup_remap (env : NetEnv) (nsid : String) (t c : Bool)
    (h : ¬(t = true ∧ c = true)) : C2concl env nsid t c := by
  refine ⟨setup_trace_head env nsid t c, ?_, ?_, ?_, ?_, ?_, ?_⟩
  · intro x hx
    rcases setup_events env nsid t c _ hx with
      h0 | ⟨i, h0⟩ | h0 | ⟨hcf, ns0, hg, h0⟩ | ⟨eps0, hg, h0⟩ | h0
    · simpa using h0
    · cases h0
    · cases h0
    · cases h0
    · cases h0
    · cases h0
  · intro n hx
    rcases setup_events env nsid t c _ hx with
      h0 | ⟨i, h0⟩ | h0 | ⟨hcf, ns0, hg, h0⟩ | ⟨eps0, hg, h0⟩ | h0
    · cases h0
    · cases h0
    · simpa using h0
    · cases h0
    · cases h0
    · cases h0
  · intro hc ns hx
    rcases setup_events env nsid t c _ hx with
      h0 | ⟨i, h0⟩ | h0 | ⟨hcf, ns0, hg, h0⟩ | ⟨eps0, hg, h0⟩ | h0
    · cases h0
    · cases h0
    · cases h0
    · rw [hc] at hcf; cases hcf
    · cases h0
    · cases h0
  · intro ht ns hx
    subst ht
    rcases setup_events env nsid true c _ hx with
      h0 | ⟨i, h0⟩ | h0 | ⟨hcf, ns0, hg, h0⟩ | ⟨eps0, hg, h0⟩ | h0
    · cases h0
    · cases h0
    · cases h0
    · injection h0 with h0'
      subst h0'
      exact ⟨by simp [nsObj], ns0, hg, by simp [nsObj]⟩
    · cases h0
    · cases h0
  · intro htc n eps hx
    rcases setup_events env nsid t c _ hx with
      h0 | ⟨i, h0⟩ | h0 | ⟨hcf, ns0, hg, h0⟩ | ⟨eps0, hg, h0⟩ | h0
    · cases h0
    · cases h0
    · cases h0
    · cases h0
    · injection h0 with hn he
      subst hn; subst he
      have htc' : (c || t) = true := by rw [Bool.or_comm]; exact htc
      refine ⟨by simp [gidOf, htc], ?_⟩
      intro ep hep
      simp only [epsOf, htc', if_true] at hep
      rcases List.mem_map.mp hep with ⟨ep0, _, rfl⟩
      rfl
    · cases h0
  · intro ht hc
    subst ht; subst hc
    constructor
    · intro ns hx
      rcases setup_events env nsid false false _ hx with
        h0 | ⟨i, h0⟩ | h0 | ⟨hcf, ns0, hg, h0⟩ | ⟨eps0, hg, h0⟩ | h0
      · cases h0
      · cases h0
      · cases h0
      · injection h0 with h0'
        simp only [nsObj, if_false] at h0'
        subst h0'
        exact hg
      · cases h0
      · cases h0
    · intro n eps hx
      rcases setup_events env nsid false false _ hx with
        h0 | ⟨i, h0⟩ | h0 | ⟨hcf, ns0, hg, h0⟩ | ⟨eps0, hg, h0⟩ | h0
      · cases h0
      · cases h0
      · cases h0
      · cases h0
      · injection h0 with hn he
        subst hn; subst he
        exact ⟨by simp [gidOf], by simpa [epsOf] using hg⟩
      · cases h0

/-- A concrete provider environment for the C2 witness. -/
def env0 : NetEnv :=
  { hnsGetNamespaceEndpoints := fun _ => Except.error "hns unavailable"
  , getHNSEndpointByID := fun i => Except.error ("no endpoint " ++ i)
  , getNamespaceByID := fun n => Except.ok { Id := n, rest := 0 }
  , addNetNSRaw := fun _ => none
  , addEndpointsToNS := fun _ _ => none
  , removeNetNS := fun _ => none }

/-- C2 witness: the ordinary-guest instantiation at a concrete environment. -/
theorem C2_setup_remap_witness :
    ¬(false = true ∧ false = true) ∧ C2concl env0 "ns-1" false false :=
  ⟨by simp, C2_setup_remap env0 "ns-1" false false (by simp)⟩

/-- C5: whenever the endpoint hot-add step of `SetupNetworkNamespace` fails
(an `addEndpoints` call at the guest-visible id `gidOf t c nsid` was issued
and the guest reported an error `e`), the function returns that original
hot-add error, and a best-effort removal of the namespace at the
guest-visible id appears in the trace — whatever the removal's own outcome
(`env.removeNetNS` is arbitrary). -/
theorem C5_hotadd_failure (env : NetEnv) (nsid : String) (t c : Bool)
    (eps : List HNSEndpoint) (e : String)
    (hmem : NetEvent.addEndpoints (gidOf t c nsid) eps ∈
      (SetupNetworkNamespace env nsid t c).2)
    (hfail : env.addEndpointsToNS (gidOf t c nsid) eps = some e) :
    (SetupNetworkNamespace env nsid t c).1 = Except.error e ∧
    NetEvent.removeNetNS (gidOf t c nsid) ∈
      (SetupNetworkNamespace env nsid t c).2 := by
  obtain ⟨tl0, htr, htl0⟩ := getNamespaceEndpoints_trace env nsid
  obtain ⟨hnoQ, hnoN, hnoA, hnoE, hnoR⟩ := events_shape htl0
  rcases setup_exec env nsid t c with
    ⟨e', h1, hset⟩ | ⟨eps0, e', h1, hc, h2, hset⟩ |
    ⟨eps0, ns0, e', h1, hc, h2, h3, hset⟩ |
    ⟨eps0, tr2, h1, hns2, hrest⟩
  · rw [hset, htr] at hmem
    rcases List.mem_cons.mp hmem with h0 | h0
    · cases h0
    · exact ((hnoE _ _ h0)).elim
  · rw [hset, htr] at hmem
    simp only [List.cons_append, List.mem_cons, List.mem_append,
      List.mem_singleton, List.not_mem_nil, or_false, or_assoc] at hmem
    rcases hmem with h0 | h0 | h0
    · cases h0
    · exact ((hnoE _ _ h0)).elim
    · cases h0
  · rw [hset, htr] at hmem
    simp only [List.cons_append, List.mem_cons, List.mem_append,
      List.mem_singleton, List.not_mem_nil, or_false, or_assoc] at hmem
    rcases hmem with h0 | h0 | h0 | h0
    · cases h0
    · exact ((hnoE _ _ h0)).elim
    · cases h0
    · cases h0
  · rcases hrest with ⟨hae, hset⟩ | ⟨e', hae, hset⟩
    · -- the hot-add succeeded: the hypotheses are contradictory
      rcases hns2 with ⟨hc, rfl⟩ | ⟨hc, ns0, h2, h3, rfl⟩ <;>
        rw [hset, htr] at hmem <;>
        simp only [List.cons_append, List.append_nil, List.mem_cons,
          List.mem_append, List.mem_singleton, List.not_mem_nil, or_false,
          or_assoc] at hmem
      · rcases hmem with h0 | h0 | h0
        · cases h0
        · exact ((hnoE _ _ h0)).elim
        · injection h0 with hn he
          subst he
          rw [hae] at hfail
          cases hfail
      · rcases hmem with h0 | h0 | h0 | h0 | h0
        · cases h0
        · exact ((hnoE _ _ h0)).elim
        · cases h0
        · cases h0
        · injection h0 with hn he
          subst he
          rw [hae] at hfail
          cases hfail
    · -- the hot-add failed with e'
      rcases hns2 with ⟨hc, rfl⟩ | ⟨hc, ns0, h2, h3, rfl⟩ <;>
        rw [hset, htr] at hmem <;>
        simp only [List.cons_append, List.append_nil, List.mem_cons,
          List.mem_append, List.mem_singleton, List.not_mem_nil, or_false,
          or_assoc] at hmem
      · rcases hmem with h0 | h0 | h0 | h0
        · cases h0
        · exact ((hnoE _ _ h0)).elim
        · injection h0 with hn he
          subst he
          rw [hae] at hfail
          injection hfail with hee
          subst hee
          refine ⟨by rw [hset], ?_⟩
          rw [hset, htr]
          simp
        · cases h0
      · rcases hmem with h0 | h0 | h0 | h0 | h0 | h0
        · cases h0
        · exact ((hnoE _ _ h0)).elim
        · cases h0
        · cases h0
        · injection h0 with hn he
          subst he
          rw [hae] at hfail
          injection hfail with hee
          subst hee
          refine ⟨by rw [hset], ?_⟩
          rw [hset, htr]
          simp
        · cases h0

/-- A concrete environment for the C5 witness: the endpoint hot-add fails,
and the namespace-removal cleanup itself also fails. -/
def env1 : NetEnv :=
  { hnsGetNamespaceEndpoints := fun _ => Except.ok []
  , getHNSEndpointByID := fun i => Except.error ("no endpoint " ++ i)
  , getNamespaceByID := fun n => Except.ok { Id := n, rest := 7 }
  , addNetNSRaw := fun _ => none
  , addEndpointsToNS := fun _ _ => some "hot-add failed"
  , removeNetNS := fun _ => some "cleanup failed" }

/-- C5 witness: a concrete failing hot-add; the returned error is the
hot-add error even though the cleanup removal also fails. -/
theorem C5_hotadd_failure_witness :
    NetEvent.addEndpoints (gidOf false false "ns-1") [] ∈
      (SetupNetworkNamespace env1 "ns-1" false false).2 ∧
    env1.addEndpointsToNS (gidOf false false "ns-1") [] = some "hot-add failed" ∧
    ((SetupNetworkNamespace env1 "ns-1" false false).1 =
        Except.error "hot-add failed" ∧
      NetEvent.removeNetNS (gidOf false false "ns-1") ∈
        (SetupNetworkNamespace env1 "ns-1" false false).2) :=
  ⟨by decide, rfl,
    C5_hotadd_failure env1 "ns-1" false false [] "hot-add failed" (by decide) rfl⟩

/-- C10: `SetupNetworkNamespace` does not reject the combination
`isTemplate = true, isClone = true`; for every environment and id it is the
very same computation as the `isClone = true, isTemplate = false` call, with
equal result and equal call trace. -/
theorem C10_both_flags_as_clone (env : NetEnv) (nsid : String) :
    SetupNetworkNamespace env nsid true true =
      SetupNetworkNamespace env nsid false true := rfl

/-- C9: the template-save orchestration runs, strictly in order, NIC
detach, control-channel close, config capture-and-persist, pause, then the
template save (`hcsSaveOptions`); its trace is always a prefix of that
sequence (so no rollback step ever runs), it succeeds exactly when every
step succeeds, and a failing step ends the run immediately with that step's
error (wrapped for pause/save as the code wraps them) and with no later
step in the trace.  A pre-existing record makes the persist step panic (see
`SaveTemplateConfig`); that case too runs no later step. -/
theorem C9_save_orchestration (env : HostEnv) (reg : Registry) (host : UtilityVM) :
    (∃ k, (saveAsTemplate env reg host).2.1 = fullSaveSeq.take k) ∧
    ((saveAsTemplate env reg host).1 = SaveOutcome.ok ↔
      env.removeAllNICs = none ∧ env.closeGCSConnection = none ∧
      (SaveTemplateConfig reg host.GenerateTemplateConfig).1 = SaveOutcome.ok ∧
      env.pause = none ∧ env.save hcsSaveOptions = none) ∧
    ((saveAsTemplate env reg host).1 = SaveOutcome.ok →
      (saveAsTemplate env reg host).2.1 = fullSaveSeq) ∧
    (∀ e, env.removeAllNICs = some e →
      saveAsTemplate env reg host = (SaveOutcome.err e, [SaveStep.removeNICs], reg)) ∧
    (∀ e, env.removeAllNICs = none → env.closeGCSConnection = some e →
      saveAsTemplate env reg host =
        (SaveOutcome.err e, [SaveStep.removeNICs, SaveStep.closeGCS], reg)) ∧
    (env.removeAllNICs = none → env.closeGCSConnection = none →
      ∀ o reg', SaveTemplateConfig reg host.GenerateTemplateConfig = (o, reg') →
        o ≠ SaveOutcome.ok →
        saveAsTemplate env reg host =
          (o, [SaveStep.removeNICs, SaveStep.closeGCS, SaveStep.persistConfig], reg')) ∧
    (env.removeAllNICs = none → env.closeGCSConnection = none →
      (SaveTemplateConfig reg host.GenerateTemplateConfig).1 = SaveOutcome.ok →
      ∀ e, env.pause = some e →
        (saveAsTemplate env reg host).1 =
          SaveOutcome.err (wrapErr "error pausing the VM" e) ∧
        (saveAsTemplate env reg host).2.1 = fullSaveSeq.take 4) ∧
    (env.removeAllNICs = none → env.closeGCSConnection = none →
      (SaveTemplateConfig reg host.GenerateTemplateConfig).1 = SaveOutcome.ok →
      env.pause = none → ∀ e, env.save hcsSaveOptions = some e →
        (saveAsTemplate env reg host).1 =
          SaveOutcome.err (wrapErr "error saving the VM" e) ∧
        (saveAsTemplate env reg host).2.1 = fullSaveSeq) := by
  cases h1 : env.removeAllNICs with
  | some e1 =>
      have hs : saveAsTemplate env reg host =
          (SaveOutcome.err e1, [SaveStep.removeNICs], reg) := by
        simp [saveAsTemplate, h1]
      refine ⟨⟨1, by rw [hs]; rfl⟩, by simp [hs], by simp [hs], ?_, ?_, ?_, ?_, ?_⟩
      · intro e he; injection he with he'; subst he'; exact hs
      · intro e hno; cases hno
      · intro hno; cases hno
      · intro hno; cases hno
      · intro hno; cases hno
  | none =>
  cases h2 : env.closeGCSConnection with
  | some e2 =>
      have hs : saveAsTemplate env reg host =
          (SaveOutcome.err e2, [SaveStep.removeNICs, SaveStep.closeGCS], reg) := by
        simp [saveAsTemplate, h1, h2]
      refine ⟨⟨2, by rw [hs]; rfl⟩, by simp [hs], by simp [hs], ?_, ?_, ?_, ?_, ?_⟩
      · intro e he; cases he
      · intro e _ he; injection he with he'; subst he'; exact hs
      · intro _ hno; cases hno
      · intro _ hno; cases hno
      · intro _ hno; cases hno
  | none =>
  rcases hstc : SaveTemplateConfig reg host.GenerateTemplateConfig with ⟨o, reg'⟩
  cases o with
  | err e3 =>
      have hs : saveAsTemplate env reg host = (SaveOutcome.err e3,
          [SaveStep.removeNICs, SaveStep.closeGCS, SaveStep.persistConfig], reg') := by
        simp [saveAsTemplate, h1, h2, hstc]
      refine ⟨⟨3, by rw [hs]; rfl⟩, by simp [hs], by simp [hs], ?_, ?_, ?_, ?_, ?_⟩
      · intro e he; cases he
      · intro e _ he; cases he
      · intro _ _ o' reg'' heq hne
        injection heq with ho hr; subst ho; subst hr; exact hs
      · intro _ _ hok; simp at hok
      · intro _ _ hok; simp at hok
  | panicked =>
      have hs : saveAsTemplate env reg host = (SaveOutcome.panicked,
          [SaveStep.removeNICs, SaveStep.closeGCS, SaveStep.persistConfig], reg') := by
        simp [saveAsTemplate, h1, h2, hstc]
      refine ⟨⟨3, by rw [hs]; rfl⟩, by simp [hs], by simp [hs], ?_, ?_, ?_, ?_, ?_⟩
      · intro e he; cases he
      · intro e _ he; cases he
      · intro _ _ o' reg'' heq hne
        injection heq with ho hr; subst ho; subst hr; exact hs
      · intro _ _ hok; simp at hok
      · intro _ _ hok; simp at hok
  | ok =>
  cases hp : env.pause with
  | some e4 =>
      have hs : saveAsTemplate env reg host =
          (SaveOutcome.err (wrapErr "error pausing the VM" e4),
           [SaveStep.removeNICs, SaveStep.closeGCS, SaveStep.persistConfig,
            SaveStep.pause], reg') := by
        simp [saveAsTemplate, h1, h2, hstc, UtilityVM.SaveAsTemplate, hp]
      refine ⟨⟨4, by rw [hs]; rfl⟩, by simp [hs], by simp [hs], ?_, ?_, ?_, ?_, ?_⟩
      · intro e he; cases he
      · intro e _ he; cases he
      · intro _ _ o' reg'' heq hne
        injection heq with ho hr; subst ho; exact absurd rfl hne
      · intro _ _ _ e hp'
        injection hp' with hp''; subst hp''
        exact ⟨by rw [hs], by rw [hs]; rfl⟩
      · intro _ _ _ hno; cases hno
  | none =>
  cases hsv : env.save hcsSaveOptions with
  | some e5 =>
      have hs : saveAsTemplate env reg host =
          (SaveOutcome.err (wrapErr "error saving the VM" e5),
           [SaveStep.removeNICs, SaveStep.closeGCS, SaveStep.persistConfig,
            SaveStep.pause, SaveStep.save hcsSaveOptions], reg') := by
        simp [saveAsTemplate, h1, h2, hstc, UtilityVM.SaveAsTemplate, hp, hsv]
      refine ⟨⟨5, by rw [hs]; rfl⟩, by simp [hs], by simp [hs], ?_, ?_, ?_, ?_, ?_⟩
      · intro e he; cases he
      · intro e _ he; cases he
      · intro _ _ o' reg'' heq hne
        injection heq with ho hr; subst ho; exact absurd rfl hne
      · intro _ _ _ e hno; cases hno
      · intro _ _ _ _ e hsv'
        injection hsv' with hsv''; subst hsv''
        exact ⟨by rw [hs], by rw [hs]; rfl⟩
  | none =>
      have hs : saveAsTemplate env reg host = (SaveOutcome.ok,
          [SaveStep.removeNICs, SaveStep.closeGCS, SaveStep.persistConfig,
           SaveStep.pause, SaveStep.save hcsSaveOptions], reg') := by
        simp [saveAsTemplate, h1, h2, hstc, UtilityVM.SaveAsTemplate, hp, hsv]
      refine ⟨⟨5, by rw [hs]; rfl⟩, by simp [hs], by intro _; rw [hs]; rfl,
        ?_, ?_, ?_, ?_, ?_⟩
      · intro e he; cases he
      · intro e _ he; cases he
      · intro _ _ o' reg'' heq hne
        injection heq with ho hr; subst ho; exact absurd rfl hne
      · intro _ _ _ e hno; cases hno
      · intro _ _ _ _ e hno; cases hno
